import Mathlib

/-!
# Verification of the email-summarizer worker (src/worker.ts)

Shallow embedding of the Cloudflare worker in `src/worker.ts`:

* the inbound `email` handler (MIME parse result → enqueued payload),
* the `queue` consumer (store insert, embedding, vector-index upsert),
* `generateSummary` and the `GET /` listing query.

External capabilities (the D1 database insert, the embedding model, the
vector index, the chat-completion model, the queue send) are modelled as
oracle functions returning `Except String _`, where `.error e` models a
thrown / rejected promise.  JavaScript `undefined` for an optional string
is modelled as `none`; `JSON.stringify` dropping an `undefined`-valued
key is modelled by keeping the field an `Option String` in the enqueued
payload (`none` = key absent).
-/

namespace EmailSummarizer

/-! ## Inbound email handler (`email` in worker.ts)

`const emailBody = parsedEmail.text || parsedEmail.html` followed by
`env.QUEUE.send(JSON.stringify({ type: 'email', body: emailBody }))`. -/

/-- Result of `PostalMime.parse`: the plain-text body and the HTML body,
each possibly `undefined` (`none`). -/
structure ParsedEmail where
  text : Option String
  html : Option String
deriving Repr, DecidableEq

/-- JavaScript truthiness of a `string | undefined` value:
`undefined` and `""` are falsy, every other string is truthy. -/
def jsTruthy : Option String → Bool
  | none => false
  | some s => !s.isEmpty

/-- JavaScript disjunction `a || b` on `string | undefined` values: `a` when truthy,
otherwise `b`. -/
def jsOr (a b : Option String) : Option String :=
  if jsTruthy a then a else b

/-- The expression `parsedEmail.text || parsedEmail.html` (worker.ts line 37). -/
def emailBody (p : ParsedEmail) : Option String :=
  jsOr p.text p.html

/-- The object serialized by
`JSON.stringify({ type: 'email', body: emailBody })`.
`body = none` models the `body` key being absent from the serialized JSON
(because `JSON.stringify` drops keys whose value is `undefined`). -/
structure EnqueuedPayload where
  type : String
  body : Option String
deriving Repr, DecidableEq

/-- The payload the `email` handler enqueues for a given parse result
(worker.ts line 39). -/
def enqueuedPayload (p : ParsedEmail) : EnqueuedPayload :=
  { type := "email", body := emailBody p }

/-- The spec's contract for the parser output, written from the spec's
words (`EmailContent.text = plainTextBody ?? htmlBody ?? ""`), to be
compared against `emailBody`, which is translated from the code. -/
def specEmailText (p : ParsedEmail) : String :=
  p.text.getD (p.html.getD "")

/-- The whole `email` handler: decode + parse the raw stream (modelled as
the oracle `parse`, since PostalMime is an external library), build the
payload, and `await env.QUEUE.send(...)`.  There is no try/catch, so a
rejection of either `parse` or `send` propagates to the caller. -/
def emailHandler (parse : String → Except String ParsedEmail)
    (send : EnqueuedPayload → Except String Unit) (raw : String) :
    Except String Unit :=
  match parse raw with
  | .error e => .error e
  | .ok p => send (enqueuedPayload p)

end EmailSummarizer

namespace EmailSummarizer

/-! ### Sanity checks on the producer model -/

example : emailBody ⟨some "Meeting at 3pm", some "<p>hi</p>"⟩ = some "Meeting at 3pm" := by
  decide

example : emailBody ⟨some "", some "<p>hi</p>"⟩ = some "<p>hi</p>" := by decide

example : emailBody ⟨none, none⟩ = none := by decide

/-! ## Queue consumer (`queue` in worker.ts)

```
for (const message of batch.messages) {
  const { body, type } = JSON.parse(message.body)
  if (type !== 'email') { console.log(...); continue }
  const { success, results } = await env.DB.prepare('INSERT ... RETURNING id').bind(body).run()
  if (!success) { console.log(...); continue }
  const id = String(results[0].id)
  const { data } = await ai.run("@cf/baai/bge-base-en-v1.5", { text: [body] })
  const values = data[0]
  await env.VECTORIZE_INDEX.upsert([{ id, values }])
}
```

There is no try/catch in the loop: a rejected D1 `.run()`, a rejected
embedding call or a rejected upsert throws out of the `for` loop and
aborts the rest of the batch.  Only the `type !== 'email'` check and the
`!success` check are handled by log-and-continue.

The model is parametric in the vector type `V` (the worker never
inspects the float values of an embedding). -/

/-- A queued message after `JSON.parse` of its body: the `type` and
`body` fields of the parsed JSON object. -/
structure QueuedPayload where
  type : String
  body : String
deriving Repr, DecidableEq

/-- The external capabilities the consumer calls, as oracles.
`.error e` models a rejected promise (a thrown exception). -/
structure QueueEnv (V : Type) where
  /-- `env.DB.prepare('INSERT ...').bind(body).run()`:
  returns the `success` flag of the D1 result, or throws. -/
  insertOk : String → Except String Bool
  /-- `(await ai.run("@cf/baai/bge-base-en-v1.5", { text: [body] })).data[0]`:
  the embedding vector for a text, or a thrown error. -/
  embed : String → Except String V
  /-- `env.VECTORIZE_INDEX.upsert([{ id, values }])`: succeeds or throws. -/
  upsertOk : String → V → Except String Unit

/-- Observable state accumulated by the consumer: the `messages` table
rows `(id, message)` with the store's next generated id, the entries
written to the vector index, the attempted embedding and upsert calls,
and the `console.log` lines. -/
structure ConsumerState (V : Type) where
  nextId : Nat
  stored : List (Nat × String)
  index : List (String × V)
  embedCalls : List String
  upsertCalls : List (String × V)
  log : List String
deriving Repr

/-- The initial state: empty `messages` table (SQLite row ids start at 1),
empty vector index, no calls made, no log lines. -/
def initState (V : Type) : ConsumerState V :=
  { nextId := 1, stored := [], index := [], embedCalls := [], upsertCalls := [], log := [] }

/-- One iteration of the consumer's `for` loop on a parsed payload.
Returns the state after the iteration together with `some e` when an
exception was thrown (which aborts the rest of the batch), `none` when
the iteration completed or hit a log-and-`continue`. -/
def processMessage {V : Type} (env : QueueEnv V) (st : ConsumerState V)
    (p : QueuedPayload) : ConsumerState V × Option String :=
  if p.type ≠ "email" then
    ({ st with log := st.log ++ ["Unknown message type: " ++ p.type] }, none)
  else
    match env.insertOk p.body with
    | .error e => (st, some e)
    | .ok false =>
        ({ st with log := st.log ++ ["Failed to insert message: " ++ p.body] }, none)
    | .ok true =>
        let id := st.nextId
        let st1 : ConsumerState V :=
          { st with nextId := id + 1, stored := st.stored ++ [(id, p.body)] }
        let idStr := toString id
        let st2 : ConsumerState V := { st1 with embedCalls := st1.embedCalls ++ [p.body] }
        match env.embed p.body with
        | .error e => (st2, some e)
        | .ok v =>
            let st3 : ConsumerState V :=
              { st2 with upsertCalls := st2.upsertCalls ++ [(idStr, v)] }
            match env.upsertOk idStr v with
            | .error e => (st3, some e)
            | .ok _ => ({ st3 with index := st3.index ++ [(idStr, v)] }, none)

/-- The consumer's `for` loop over a delivered batch: processes messages
in order; a thrown exception stops the loop and leaves the remaining
messages unprocessed. -/
def processBatch {V : Type} (env : QueueEnv V) (st : ConsumerState V) :
    List QueuedPayload → ConsumerState V × Option String
  | [] => (st, none)
  | p :: ps =>
      match processMessage env st p with
      | (st', none) => processBatch env st' ps
      | (st', some e) => (st', some e)

/-! ## Summarizer and listing query (`generateSummary` / `fetch` in worker.ts)

`generateSummary` runs `SELECT * FROM messages` (no filter) and builds a
five-turn chat prompt; the `GET /` branch of `fetch` runs
`SELECT * FROM messages WHERE created_at > '<now - 24h as ISO string>'`.
Rows carry a numeric `created_at`; comparing ISO-8601 strings of a fixed
format agrees with comparing the timestamps they denote, so the SQL
string comparison is modelled by `<` on `Nat` milliseconds. -/

/-- A row of the `messages` table. -/
structure MessageRow where
  id : Nat
  message : String
  created_at : Nat
deriving Repr, DecidableEq

/-- A single `role`/`content` chat turn sent to the completion model. -/
structure ChatMessage where
  role : String
  content : String
deriving Repr, DecidableEq

/-- The query `SELECT * FROM messages` (worker.ts line 66): every row, no filter. -/
def allMessages (db : List MessageRow) : List MessageRow := db

/-- The constant `24 * 60 * 60 * 1000` milliseconds (worker.ts line 93). -/
def dayMs : Nat := 24 * 60 * 60 * 1000

/-- The `GET /` listing query (worker.ts lines 95–97):
`SELECT * FROM messages WHERE created_at > '<(now - dayMs).toISOString()>'`. -/
def recentMessages (db : List MessageRow) (now : Nat) : List MessageRow :=
  db.filter (fun r => now - dayMs < r.created_at)

/-- The five-turn prompt `generateSummary` builds (worker.ts lines 68–74):
the concatenated bodies are `emails.map(email => email.message).join("\n")`. -/
def summaryPrompt (emails : List MessageRow) : List ChatMessage :=
  [ { role := "system", content := "You are an AI that summarizes emails." },
    { role := "system",
      content := "You will receive a list of emails - take the details of each email and summarize them." },
    { role := "system", content := "Don't repeat the prompt back to me, just return the summary." },
    { role := "system",
      content := "Here are the emails for today: "
        ++ String.intercalate "\n" (emails.map (fun email => email.message)) },
    { role := "user", content := "Summarize my emails from today." } ]

/-- The function `generateSummary` (worker.ts lines 65–83): read every row of the
store, build the prompt, invoke the completion capability (`ai.run` on
the chat model, modelled as the oracle `complete`), and return its
`response` verbatim. -/
def generateSummary (complete : List ChatMessage → String) (db : List MessageRow) : String :=
  complete (summaryPrompt (allMessages db))

/-- Every vector-index entry, and every attempted index upsert, is keyed
by the string form of the id of some row present in the `messages`
table: no embedding is indexed without a corresponding stored message. -/
def indexBacked {V : Type} (st : ConsumerState V) : Prop :=
  (∀ e ∈ st.index, ∃ r ∈ st.stored, toString r.1 = e.1) ∧
  (∀ c ∈ st.upsertCalls, ∃ r ∈ st.stored, toString r.1 = c.1)

/-! ## Theorems -/

/-- Claim C2, counterexample: The claim says the enqueued body equals
`text ?? html ?? ""`, in particular the empty string when neither body is
present.  The code computes `text || html` with no `?? ""` fallback and
`JSON.stringify` drops the `undefined`-valued key: for an email with
neither a plain-text nor an HTML body the enqueued `body` field is
absent (`none`), not the empty string demanded by the spec
(`specEmailText ⟨none, none⟩ = ""`). -/
theorem C2_counterexample :
    (enqueuedPayload ⟨none, none⟩).body = none ∧
    specEmailText ⟨none, none⟩ = "" ∧
    (enqueuedPayload ⟨none, none⟩).body ≠ some (specEmailText ⟨none, none⟩) := by
  refine ⟨rfl, rfl, ?_⟩
  decide

/-- Claim C2, amended: The enqueued body equals the plain-text body when
that body is present and non-empty; when the plain-text body is absent
or empty it equals the HTML body field — which may itself be absent, in
which case the enqueued `body` key is absent (`none`), not the empty
string. -/
theorem C2_enqueued_body_characterization (p : ParsedEmail) :
    (∀ t, p.text = some t → t ≠ "" → (enqueuedPayload p).body = some t) ∧
    ((p.text = none ∨ p.text = some "") → (enqueuedPayload p).body = p.html) := by
  constructor
  · intro t ht hne
    have hemp : t.isEmpty = false := by
      rw [Bool.eq_false_iff]
      intro hc
      exact hne ((String.isEmpty_iff t).mp hc)
    have htr : jsTruthy (some t) = true := by simp [jsTruthy, hemp]
    simp [enqueuedPayload, emailBody, jsOr, ht, htr]
  · intro hfalsy
    rcases hfalsy with h | h
    · simp [enqueuedPayload, emailBody, jsOr, h, jsTruthy]
    · have htr : jsTruthy (some "") = false := by decide
      simp [enqueuedPayload, emailBody, jsOr, h, htr]

/-- Claim C2, witness: At the concrete input with neither body present,
the enqueued body field is absent. -/
theorem C2_enqueued_body_characterization_witness :
    (enqueuedPayload ⟨none, none⟩).body = none :=
  (C2_enqueued_body_characterization ⟨none, none⟩).2 (Or.inl rfl)

/-- Claim C5: For every parsed email whose plain-text body is a non-empty
string, the enqueued body equals that plain-text body, regardless of the
HTML body. -/
theorem C5_nonempty_plaintext_wins (p : ParsedEmail) (t : String)
    (ht : p.text = some t) (hne : t ≠ "") :
    (enqueuedPayload p).body = some t := by
  have hemp : t.isEmpty = false := by
    rw [Bool.eq_false_iff]
    intro hc
    exact hne ((String.isEmpty_iff t).mp hc)
  have htr : jsTruthy (some t) = true := by simp [jsTruthy, hemp]
  simp [enqueuedPayload, emailBody, jsOr, ht, htr]

/-- Claim C5, witness: "Meeting at 3pm" with an HTML body also present is
enqueued as "Meeting at 3pm". -/
theorem C5_nonempty_plaintext_wins_witness :
    (enqueuedPayload ⟨some "Meeting at 3pm", some "<p>hi</p>"⟩).body = some "Meeting at 3pm" :=
  C5_nonempty_plaintext_wins ⟨some "Meeting at 3pm", some "<p>hi</p>"⟩ "Meeting at 3pm" rfl
    (by decide)

/-- Claim C10: For every parsed email whose plain-text body is the empty
string and whose HTML body is present, the enqueued body equals the HTML
body: `||` tests JavaScript truthiness, and `""` is falsy. -/
theorem C10_empty_plaintext_falls_through (p : ParsedEmail) (h : String)
    (ht : p.text = some "") (hh : p.html = some h) :
    (enqueuedPayload p).body = some h := by
  have htr : jsTruthy (some "") = false := by decide
  simp [enqueuedPayload, emailBody, jsOr, ht, hh, htr]

/-- Claim C10, witness: An empty plain-text body with HTML body
`"<p>hi</p>"` is enqueued as `"<p>hi</p>"`. -/
theorem C10_empty_plaintext_falls_through_witness :
    (enqueuedPayload ⟨some "", some "<p>hi</p>"⟩).body = some "<p>hi</p>" :=
  C10_empty_plaintext_falls_through ⟨some "", some "<p>hi</p>"⟩ "<p>hi</p>" rfl rfl

/-- Claim C9: The `email` handler has no try/catch: if the queue send
fails, the handler fails with that error; and whenever the handler
completes successfully, the send itself succeeded — an inbound email is
never silently dropped with the handler reporting success. -/
theorem C9_enqueue_failure_propagates
    (parse : String → Except String ParsedEmail)
    (send : EnqueuedPayload → Except String Unit) (raw : String) :
    (∀ p e, parse raw = .ok p → send (enqueuedPayload p) = .error e →
      emailHandler parse send raw = .error e) ∧
    (emailHandler parse send raw = .ok () →
      ∃ p, parse raw = .ok p ∧ send (enqueuedPayload p) = .ok ()) := by
  constructor
  · intro p e hp hs
    simp [emailHandler, hp, hs]
  · intro hok
    cases hparse : parse raw with
    | error e => rw [emailHandler, hparse] at hok; simp at hok
    | ok p =>
        refine ⟨p, rfl, ?_⟩
        rw [emailHandler, hparse] at hok
        simpa using hok

/-- Claim C9, witness: With a parser returning a fixed parse and a queue
whose send rejects with "queue full", the handler rejects with
"queue full". -/
theorem C9_enqueue_failure_propagates_witness :
    emailHandler (fun _ => .ok ⟨some "x", none⟩) (fun _ => .error "queue full") "raw" =
      .error "queue full" :=
  (C9_enqueue_failure_propagates (fun _ => .ok ⟨some "x", none⟩)
    (fun _ => .error "queue full") "raw").1 ⟨some "x", none⟩ "queue full" rfl rfl

/-- Claim C6: A queued message whose parsed payload has `type ≠ "email"`
is logged and skipped: the iteration changes nothing but the log (no
store insert, no embedding call, no upsert, no thrown error), and the
rest of the batch is processed from that state. -/
theorem C6_unknown_type_skipped {V : Type} (env : QueueEnv V) (st : ConsumerState V)
    (p : QueuedPayload) (ps : List QueuedPayload) (hty : p.type ≠ "email") :
    processMessage env st p =
      ({ st with log := st.log ++ ["Unknown message type: " ++ p.type] }, none) ∧
    processBatch env st (p :: ps) =
      processBatch env { st with log := st.log ++ ["Unknown message type: " ++ p.type] } ps := by
  constructor
  · simp [processMessage, hty]
  · simp [processBatch, processMessage, hty]

/-- Claim C6, witness: A `"ping"` message in a singleton batch only adds a
log line. -/
theorem C6_unknown_type_skipped_witness :
    processBatch (⟨fun _ => .ok true, fun _ => .ok (0 : Nat), fun _ _ => .ok ()⟩ : QueueEnv Nat)
      (initState Nat) [⟨"ping", "x"⟩] =
      ({ initState Nat with log := ["Unknown message type: " ++ "ping"] }, none) :=
  ((C6_unknown_type_skipped
      (⟨fun _ => .ok true, fun _ => .ok (0 : Nat), fun _ _ => .ok ()⟩ : QueueEnv Nat)
      (initState Nat) ⟨"ping", "x"⟩ [] (by decide)).2).trans rfl

/-- Claim C7: Batch of two email messages where the store insert reports
`success = false` for the first and `true` for the second (and embedding
and upsert succeed): afterwards exactly one row is stored (the second
message, id 1), exactly one embedding call and one upsert were made —
both for the second message — and no exception was thrown. -/
theorem C7_insert_failure_isolated {V : Type} (env : QueueEnv V) (b1 b2 : String) (v : V)
    (h1 : env.insertOk b1 = .ok false)
    (h2 : env.insertOk b2 = .ok true)
    (h3 : env.embed b2 = .ok v)
    (h4 : env.upsertOk (toString 1) v = .ok ()) :
    processBatch env (initState V) [⟨"email", b1⟩, ⟨"email", b2⟩] =
      ({ nextId := 2, stored := [(1, b2)], index := [(toString 1, v)],
         embedCalls := [b2], upsertCalls := [(toString 1, v)],
         log := ["Failed to insert message: " ++ b1] }, none) := by
  simp [processBatch, processMessage, initState, h1, h2, h3, h4]

/-- Claim C7, witness: Concrete instance with texts "a" (insert fails) and
"b" (insert succeeds, embedding vector 7). -/
theorem C7_insert_failure_isolated_witness :
    processBatch
      (⟨fun s => .ok (s == "b"), fun _ => .ok (7 : Nat), fun _ _ => .ok ()⟩ : QueueEnv Nat)
      (initState Nat) [⟨"email", "a"⟩, ⟨"email", "b"⟩] =
      ({ nextId := 2, stored := [(1, "b")], index := [(toString 1, 7)],
         embedCalls := ["b"], upsertCalls := [(toString 1, 7)],
         log := ["Failed to insert message: " ++ "a"] }, none) :=
  C7_insert_failure_isolated
    (⟨fun s => .ok (s == "b"), fun _ => .ok (7 : Nat), fun _ _ => .ok ()⟩ : QueueEnv Nat)
    "a" "b" 7 rfl rfl rfl rfl

/-- Claim C1, counterexample: The claim says a failure of the embedding
call is caught and converted into log-and-skip, leaving the rest of the
batch unaffected.  The loop has no try/catch: with an embedding oracle
that throws "embed down", a batch of two email messages ends with the
exception propagating out of the handler and only the first message
stored — the second message is never processed (no insert, no log line
for it, no skip). -/
theorem C1_counterexample :
    processBatch (⟨fun _ => .ok true, fun _ => .error "embed down",
        fun _ _ => .ok ()⟩ : QueueEnv Nat)
      (initState Nat) [⟨"email", "a"⟩, ⟨"email", "b"⟩] =
      ({ nextId := 2, stored := [(1, "a")], index := [], embedCalls := ["a"],
         upsertCalls := [], log := [] }, some "embed down") := rfl

/-- Claim C1, amended: Per-message isolation holds only for the two
handled cases — an unknown `type` and a store insert reporting
`success = false` are logged and skipped, and the remaining messages are
processed — whereas a thrown failure of the embedding call, and likewise
a thrown failure of the vector-index upsert, is not caught: it
propagates, leaving the insert of the failing message in the store and
the remaining messages of the batch unprocessed. -/
theorem C1_failure_isolation_scope {V : Type} (env : QueueEnv V) (st : ConsumerState V)
    (p : QueuedPayload) (ps : List QueuedPayload) :
    (p.type ≠ "email" →
      processBatch env st (p :: ps) =
        processBatch env { st with log := st.log ++ ["Unknown message type: " ++ p.type] } ps) ∧
    (p.type = "email" → env.insertOk p.body = .ok false →
      processBatch env st (p :: ps) =
        processBatch env { st with log := st.log ++ ["Failed to insert message: " ++ p.body] } ps) ∧
    (∀ e, p.type = "email" → env.insertOk p.body = .ok true → env.embed p.body = .error e →
      processBatch env st (p :: ps) =
        ({ st with
            nextId := st.nextId + 1,
            stored := st.stored ++ [(st.nextId, p.body)],
            embedCalls := st.embedCalls ++ [p.body] }, some e)) ∧
    (∀ e v, p.type = "email" → env.insertOk p.body = .ok true → env.embed p.body = .ok v →
      env.upsertOk (toString st.nextId) v = .error e →
      processBatch env st (p :: ps) =
        ({ st with
            nextId := st.nextId + 1,
            stored := st.stored ++ [(st.nextId, p.body)],
            embedCalls := st.embedCalls ++ [p.body],
            upsertCalls := st.upsertCalls ++ [(toString st.nextId, v)] }, some e)) := by
  refine ⟨?_, ?_, ?_, ?_⟩
  · intro hty
    simp [processBatch, processMessage, hty]
  · intro hty hins
    simp [processBatch, processMessage, hty, hins]
  · intro e hty hins hemb
    simp [processBatch, processMessage, hty, hins, hemb]
  · intro e v hty hins hemb hup
    simp [processBatch, processMessage, hty, hins, hemb, hup]

/-- Claim C1, witness: A vector-index upsert that throws "index down" on
the first message of a two-message batch propagates: the first message's
insert and embedding stay recorded, the exception escapes, and the
second message is never processed. -/
theorem C1_failure_isolation_scope_witness :
    processBatch (⟨fun _ => .ok true, fun _ => .ok (3 : Nat),
        fun _ _ => .error "index down"⟩ : QueueEnv Nat)
      (initState Nat) [⟨"email", "a"⟩, ⟨"email", "b"⟩] =
      ({ nextId := 2, stored := [(1, "a")], index := [], embedCalls := ["a"],
         upsertCalls := [(toString 1, 3)], log := [] }, some "index down") :=
  ((C1_failure_isolation_scope (⟨fun _ => .ok true, fun _ => .ok (3 : Nat),
      fun _ _ => .error "index down"⟩ : QueueEnv Nat)
    (initState Nat) ⟨"email", "a"⟩ [⟨"email", "b"⟩]).2.2.2 "index down" 3
      rfl rfl rfl rfl).trans rfl

/-- Helper: one loop iteration preserves `indexBacked` — any index entry
or upsert attempt it adds is keyed by `toString` of the id of the row it
has just inserted. -/
theorem processMessage_indexBacked {V : Type} (env : QueueEnv V) (st : ConsumerState V)
    (p : QueuedPayload) (h : indexBacked st) :
    indexBacked (processMessage env st p).1 := by
  obtain ⟨hidx, hups⟩ := h
  have keep : ∀ (l : List (String × V)),
      (∀ e ∈ l, ∃ r ∈ st.stored, toString r.1 = e.1) →
      ∀ e ∈ l, ∃ r ∈ st.stored ++ [(st.nextId, p.body)], toString r.1 = e.1 := by
    intro l hl e he
    obtain ⟨r, hr, hre⟩ := hl e he
    exact ⟨r, List.mem_append.mpr (Or.inl hr), hre⟩
  have grow : ∀ (l : List (String × V)) (v : V),
      (∀ e ∈ l, ∃ r ∈ st.stored, toString r.1 = e.1) →
      ∀ e ∈ l ++ [(toString st.nextId, v)],
        ∃ r ∈ st.stored ++ [(st.nextId, p.body)], toString r.1 = e.1 := by
    intro l v hl e he
    rcases List.mem_append.mp he with he | he
    · obtain ⟨r, hr, hre⟩ := hl e he
      exact ⟨r, List.mem_append.mpr (Or.inl hr), hre⟩
    · have hex : e = (toString st.nextId, v) := List.mem_singleton.mp he
      subst hex
      exact ⟨(st.nextId, p.body),
        List.mem_append.mpr (Or.inr (List.mem_singleton.mpr rfl)), rfl⟩
  unfold processMessage
  split
  · exact ⟨hidx, hups⟩
  · split
    · exact ⟨hidx, hups⟩
    · exact ⟨hidx, hups⟩
    · dsimp only
      split
      · exact ⟨keep _ hidx, keep _ hups⟩
      · split
        · exact ⟨keep _ hidx, grow _ _ hups⟩
        · exact ⟨grow _ _ hidx, grow _ _ hups⟩

/-- Claim C4: Processing any batch preserves the invariant that every
vector-index entry (and every attempted upsert) is keyed by the string
form of the id of a row present in the message store: an upsert happens
only after the insert for that message reported success, with the
store-generated id converted by `String(...)`, so no embedding is ever
indexed without a corresponding stored message. -/
theorem C4_index_backed_by_store {V : Type} (env : QueueEnv V) (st : ConsumerState V)
    (ps : List QueuedPayload) (h : indexBacked st) :
    indexBacked (processBatch env st ps).1 := by
  induction ps generalizing st with
  | nil => exact h
  | cons p ps ih =>
      have hst := processMessage_indexBacked env st p h
      unfold processBatch
      rcases hpm : processMessage env st p with ⟨st', err⟩
      rw [hpm] at hst
      cases err with
      | none => exact ih st' hst
      | some e => exact hst

/-- Claim C4, witness: Starting from the empty store, a successful
singleton batch ends in a state whose index is backed by the store. -/
theorem C4_index_backed_by_store_witness :
    indexBacked (processBatch (⟨fun _ => .ok true, fun _ => .ok (5 : Nat),
        fun _ _ => .ok ()⟩ : QueueEnv Nat)
      (initState Nat) [⟨"email", "hello"⟩]).1 :=
  C4_index_backed_by_store _ _ _ (by simp [indexBacked, initState])

/-- Claim C3: `generateSummary` feeds the completion model every row of
the store (`SELECT * FROM messages`, no time filter), while the `GET /`
listing returns only rows with `created_at` in the last 24 hours; when
the store holds a row older than 24 hours, the summarizer's input is a
strict superset of the listing. -/
theorem C3_summary_reads_all_rows (db : List MessageRow) (now : Nat)
    (complete : List ChatMessage → String)
    (hold : ∃ r ∈ db, r.created_at ≤ now - dayMs) :
    generateSummary complete db = complete (summaryPrompt (allMessages db)) ∧
    (∀ r ∈ recentMessages db now, r ∈ allMessages db) ∧
    (∃ r ∈ allMessages db, r ∉ recentMessages db now) := by
  refine ⟨rfl, ?_, ?_⟩
  · intro r hr
    exact List.mem_of_mem_filter hr
  · obtain ⟨r, hr, hle⟩ := hold
    refine ⟨r, hr, fun hc => ?_⟩
    have := (List.mem_filter.mp hc).2
    exact absurd (of_decide_eq_true this) (Nat.not_lt.mpr hle)

/-- Claim C3, witness: With one row older than 24 hours and one recent
row, the old row is in the summarizer's input but not in the listing. -/
theorem C3_summary_reads_all_rows_witness :
    ∃ r ∈ allMessages [⟨1, "old", 0⟩, ⟨2, "new", 200000000000⟩],
      r ∉ recentMessages [⟨1, "old", 0⟩, ⟨2, "new", 200000000000⟩] 200000000000 :=
  (C3_summary_reads_all_rows [⟨1, "old", 0⟩, ⟨2, "new", 200000000000⟩] 200000000000
    (fun _ => "") ⟨⟨1, "old", 0⟩, by simp, Nat.zero_le _⟩).2.2

/-- Claim C8: With zero stored rows, `generateSummary` still builds the
full five-turn prompt — the fourth turn carrying an empty concatenation
of message bodies — invokes the completion capability on it, and returns
the generated text (no failure path exists). -/
theorem C8_empty_store_prompt (complete : List ChatMessage → String) :
    generateSummary complete [] =
      complete
        [ { role := "system", content := "You are an AI that summarizes emails." },
          { role := "system",
            content := "You will receive a list of emails - take the details of each email and summarize them." },
          { role := "system",
            content := "Don't repeat the prompt back to me, just return the summary." },
          { role := "system", content := "Here are the emails for today: " },
          { role := "user", content := "Summarize my emails from today." } ] := rfl

end EmailSummarizer
